import Mathlib

/-!
Shallow embedding of the command-line parser of cargo-llvm-cov
(src/cli.rs).  The parser reads the process argument vector, strips the
invocation envelope (program name plus the fixed literal subcommand
"llvm-cov"), splits the remaining tokens at the first literal "--",
and then walks the classified segment with a lexopt-style tokenizer,
resolving each token into the tool's own flags, the optional subcommand,
or forwarded (passthrough) arguments.

Tokens are modelled as Lean `String`s (the Rust code requires all
arguments to be valid Unicode before parsing begins; the non-Unicode
rejection path operates on `OsString` and is outside the model).
-/

namespace CargoLlvmCov

/-- The `Subcommand` enum of src/cli.rs. -/
inductive Subcommand
  | test
  | run
  | showEnv
  | clean
  | nextest
  | demangle
deriving DecidableEq

/-- `impl FromStr for Subcommand` (src/cli.rs): keyword-to-subcommand
conversion; `None` models the `bail!("unrecognized subcommand ...")` arm. -/
def Subcommand.fromStr (s : String) : Option Subcommand :=
  match s with
  | "test" | "t" => some .test
  | "run" | "r" => some .run
  | "show-env" => some .showEnv
  | "clean" => some .clean
  | "nextest" => some .nextest
  | "demangle" => some .demangle
  | _ => none

/-- Modelled from the spec: the `Coloring` enumeration lives in the `term`
module, which is absent from src/; the spec describes it as the closed
enumeration \x7bAuto, Always, Never\x7d. -/
inductive Coloring
  | auto
  | always
  | never
deriving DecidableEq

/-- Modelled from the spec: string conversion for `Coloring` (the `term`
module is absent from src/); the spec lists the variants Auto, Always,
Never, matched here by their lowercase command-line spellings. -/
def Coloring.fromStr (s : String) : Option Coloring :=
  match s with
  | "auto" => some .auto
  | "always" => some .always
  | "never" => some .never
  | _ => none

/-- Decimal digit accumulation for Rust's integer `FromStr`:
all characters must be decimal digits. -/
def decDigitsAux : List Char → Nat → Option Nat
  | [], acc => some acc
  | c :: cs, acc =>
    if 48 ≤ c.toNat ∧ c.toNat ≤ 57 then
      decDigitsAux cs (acc * 10 + (c.toNat - 48))
    else
      none

/-- Rust unsigned-integer `FromStr` grammar: an optional leading `+`
followed by at least one decimal digit. -/
def parseUIntCore (s : String) : Option Nat :=
  match s.data with
  | [] => none
  | '+' :: [] => none
  | '+' :: cs => decDigitsAux cs 0
  | cs => decDigitsAux cs 0

/-- `str::parse::<u32>()`: decimal digits, value below 2^32. -/
def parseU32 (s : String) : Option Nat :=
  (parseUIntCore s).bind fun n => if n < 2 ^ 32 then some n else none

/-- `str::parse::<u64>()`: decimal digits, value below 2^64. -/
def parseU64 (s : String) : Option Nat :=
  (parseUIntCore s).bind fun n => if n < 2 ^ 64 then some n else none

/-- Digit-sequence check used by the f64-literal model. -/
def allDecDigits (cs : List Char) : Bool :=
  cs.all fun c => 48 ≤ c.toNat && c.toNat ≤ 57

/-- Decimal-literal body: digits with at most one `.`, at least one digit. -/
def decLitBody (cs : List Char) : Bool :=
  match cs.splitOn '.' with
  | [intPart] => !intPart.isEmpty && allDecDigits intPart
  | [intPart, fracPart] =>
    (!intPart.isEmpty || !fracPart.isEmpty) &&
      allDecDigits intPart && allDecDigits fracPart
  | _ => false

/-- `str::parse::<f64>()`, restricted: the floating-point value itself is
out of scope of the model, so a successful conversion keeps the raw
string.  Success is modelled for plain decimal literals with an optional
sign (exponent/inf/nan spellings, which no caller in this development
uses, are conservatively rejected). -/
def parseF64Raw (s : String) : Option String :=
  match s.data with
  | '+' :: cs => if decLitBody cs then some s else none
  | '-' :: cs => if decLitBody cs then some s else none
  | cs => if decLitBody cs then some s else none

/-! ### The lexopt tokenizer model

The Rust code drives `lexopt::Parser` (crate lexopt, an external
dependency): `next` produces `Long`/`Short`/`Value` tokens, `value`
pulls an option's value (the attached `=value`, the rest of a short
cluster, or otherwise the next raw argument verbatim), and
`optional_value` consumes only an attached value.  A long option
`--name=value` whose value is never consumed makes the following `next`
fail.  After a lone `--` every remaining token is a `Value` (inside
`Args::parse` this state is unreachable, because the raw stream was
already split at the first `--`). -/

/-- A recognized token: `lexopt::Arg`. -/
inductive Arg
  | long (name : String)
  | short (c : Char)
  | value (s : String)
deriving DecidableEq

/-- `format_flag` (src/cli.rs): canonical spelling of a flag token; the
`Value` arm is `unreachable!()` in Rust and is given the value itself
here (no caller applies it to a value). -/
def formatArg : Arg → String
  | .long name => "--" ++ name
  | .short c => String.mk ['-', c]
  | .value s => s

/-- Carry-over state of the tokenizer between `next` calls:
an unconsumed attached `=value` of a long option, or the remaining
characters of a short-option cluster. -/
inductive Pending
  | none
  | longValue (flag : String) (v : String)
  | shorts (cs : List Char)
deriving DecidableEq

/-- Tokenizer state: remaining raw arguments, pending carry-over, and
whether a lone `--` has switched the stream to values-only. -/
structure LexState where
  args : List String
  pending : Pending
  finished : Bool
deriving DecidableEq

/-- Parse-failure taxonomy of `Args::parse` and the lexopt layer. -/
inductive ParseError
  /-- bail "expected subcommand 'llvm-cov'" -/
  | missingSubcommand
  /-- bail "expected subcommand 'llvm-cov', found argument ..." -/
  | unexpectedSubcommand (found : String)
  /-- `multi_arg`: a single-use flag was provided more than once. -/
  | multiArg (flag : String)
  /-- `requires`: a flag used without its prerequisite. -/
  | requires (flag : String) (withFlags : String)
  /-- lexopt: a long option's attached value was never consumed. -/
  | unexpectedValue (flag : String) (v : String)
  /-- lexopt: `value()` called with no argument left. -/
  | missingValue
  /-- a value failed its typed conversion (int/float/coloring). -/
  | invalidValue (v : String)
  /-- `Arg::unexpected`: the token after the `demangle` subcommand. -/
  | unexpectedArg (arg : String)
  /-- bail "Found argument '--version' which wasn't expected ..." -/
  | unexpectedVersion
  /-- model-only: loop fuel exhausted (unreachable for the fuel chosen
  by `Args.parse`). -/
  | outOfFuel
deriving DecidableEq

/-- Split a long option's characters at the first `=`:
`--name=value` carries an attached value. -/
def splitEq : List Char → List Char × Option (List Char)
  | [] => ([], none)
  | '=' :: rest => ([], some rest)
  | c :: rest =>
    let (n, v) := splitEq rest
    (c :: n, v)

/-- A short cluster's remainder used as a value drops one leading `=`
(lexopt accepts `-f=value`). -/
def stripEq : List Char → List Char
  | '=' :: cs => cs
  | cs => cs

/-- Token recognition on the raw argument list (the no-pending case of
lexopt's `next`): `--name[=value]`, `-c...` clusters, the `--` separator
(which switches to values-only mode and recurses), and bare values. -/
def nextFromArgs : Bool → List String → Option (Arg × LexState)
  | _, [] => none
  | true, a :: r => some (.value a, ⟨r, .none, true⟩)
  | false, a :: r =>
    match a.data with
    | ['-', '-'] => nextFromArgs true r
    | '-' :: '-' :: rest =>
      match splitEq rest with
      | (name, some v) =>
        some (.long (String.mk name),
          ⟨r, .longValue (String.mk name) (String.mk v), false⟩)
      | (name, none) => some (.long (String.mk name), ⟨r, .none, false⟩)
    | '-' :: c :: cs =>
      some (.short c, ⟨r, if cs.isEmpty then .none else .shorts cs, false⟩)
    | _ => some (.value a, ⟨r, .none, false⟩)

/-- `lexopt::Parser::next`: an unconsumed attached long value errors;
a pending short cluster yields its next character; otherwise the next
raw argument is classified. -/
def LexState.next (lx : LexState) : Except ParseError (Option (Arg × LexState)) :=
  match lx.pending with
  | .longValue f v => .error (.unexpectedValue f v)
  | .shorts (c :: cs) =>
    .ok (some (.short c,
      { lx with pending := if cs.isEmpty then .none else .shorts cs }))
  | .shorts [] => .ok (nextFromArgs lx.finished lx.args)
  | .none => .ok (nextFromArgs lx.finished lx.args)

/-- `lexopt::Parser::value`: the attached `=value`, the rest of the short
cluster, or the next raw argument verbatim (even if it looks like an
option); fails if nothing is left. -/
def LexState.value (lx : LexState) : Except ParseError (String × LexState) :=
  match lx.pending with
  | .longValue _ v => .ok (v, { lx with pending := .none })
  | .shorts cs => .ok (String.mk (stripEq cs), { lx with pending := .none })
  | .none =>
    match lx.args with
    | [] => .error .missingValue
    | a :: r => .ok (a, { lx with args := r })

/-- `lexopt::Parser::optional_value`: consumes only an attached value
(the `=value` of a long option or the rest of a short cluster). -/
def LexState.optionalValue (lx : LexState) : Option String × LexState :=
  match lx.pending with
  | .longValue _ v => (some v, { lx with pending := .none })
  | .shorts cs => (some (String.mk (stripEq cs)), { lx with pending := .none })
  | .none => (none, lx)

/-! ### Accumulated parser state

One mutable local per flag of `Args::parse`, except `subcommand`, which
the main loop threads separately (the flag arms read it but never write
it; only the bare-value arm assigns it). -/

/-- The mutable locals of `Args::parse` other than `subcommand`.
`fail_under_lines` keeps the raw (validated) literal, see `parseF64Raw`. -/
structure OState where
  cargo_args : List String
  manifest_path : Option String
  color : Option Coloring
  doctests : Bool
  no_run : Bool
  no_fail_fast : Bool
  ignore_run_fail : Bool
  lib : Bool
  bin : List String
  bins : Bool
  «example» : List String
  examples : Bool
  test : List String
  tests : Bool
  bench : List String
  benches : Bool
  all_targets : Bool
  doc : Bool
  package : List String
  workspace : Bool
  exclude : List String
  exclude_from_test : List String
  exclude_from_report : List String
  json : Bool
  lcov : Bool
  text : Bool
  html : Bool
  «open» : Bool
  summary_only : Bool
  output_path : Option String
  output_dir : Option String
  failure_mode : Option String
  ignore_filename_regex : Option String
  disable_default_ignore_filename_regex : Bool
  hide_instantiations : Bool
  no_cfg_coverage : Bool
  no_cfg_coverage_nightly : Bool
  no_report : Bool
  fail_under_lines : Option String
  fail_uncovered_lines : Option Nat
  fail_uncovered_regions : Option Nat
  fail_uncovered_functions : Option Nat
  show_missing_lines : Bool
  include_build_script : Bool
  jobs : Option Nat
  release : Bool
  profile : Option String
  target : Option String
  coverage_target_only : Bool
  remap_path_prefix : Bool
  include_ffi : Bool
  verbose : Nat
deriving DecidableEq

/-- The `let mut ... = ...` initializers of `Args::parse`. -/
def initOState : OState where
  cargo_args := []
  manifest_path := none
  color := none
  doctests := false
  no_run := false
  no_fail_fast := false
  ignore_run_fail := false
  lib := false
  bin := []
  bins := false
  «example» := []
  examples := false
  test := []
  tests := false
  bench := []
  benches := false
  all_targets := false
  doc := false
  package := []
  workspace := false
  exclude := []
  exclude_from_test := []
  exclude_from_report := []
  json := false
  lcov := false
  text := false
  html := false
  «open» := false
  summary_only := false
  output_path := none
  output_dir := none
  failure_mode := none
  ignore_filename_regex := none
  disable_default_ignore_filename_regex := false
  hide_instantiations := false
  no_cfg_coverage := false
  no_cfg_coverage_nightly := false
  no_report := false
  fail_under_lines := none
  fail_uncovered_lines := none
  fail_uncovered_regions := none
  fail_uncovered_functions := none
  show_missing_lines := false
  include_build_script := false
  jobs := none
  release := false
  profile := none
  target := none
  coverage_target_only := false
  remap_path_prefix := false
  include_ffi := false
  verbose := 0

/-- Outcome of one flag arm of the main match: continue the loop with
updated tokenizer/flag state, exit the process with status 0
(help/version), or abort the parse. -/
inductive StepRes
  | cont (lx : LexState) (st : OState)
  | exitZero
  | fail (e : ParseError)
deriving DecidableEq

/-- The `parse_flag!` macro: a boolean flag errors with `multi_arg` on a
repeated occurrence, else stores `true` (the caller passes the updated
state). -/
def parseFlag (flag : String) (cur : Bool) (lx : LexState) (updated : OState) : StepRes :=
  if cur then .fail (.multiArg flag) else .cont lx updated

/-- `parser.value()?` followed by a continuation (value conversion plus
state update). -/
def withValue (lx : LexState) (k : String → LexState → StepRes) : StepRes :=
  match lx.value with
  | .error e => .fail e
  | .ok (v, lx') => k v lx'

/-- The `parse_opt!` macro: a unique-valued option errors with
`multi_arg` when already set, else pulls and converts its value. -/
def parseOpt {α : Type} (flag : String) (cur : Option α) (lx : LexState)
    (k : String → LexState → StepRes) : StepRes :=
  if cur.isSome then .fail (.multiArg flag) else withValue lx k

/-- The passthrough arm for an unrecognized long option: reconstructed as
`--flag` or `--flag=value` and appended to `cargo_args`. -/
def passLong (name : String) (lx : LexState) (st : OState) : StepRes :=
  let flag := "--" ++ name
  match lx.optionalValue with
  | (some v, lx') =>
    .cont lx' { st with cargo_args := st.cargo_args ++ [flag ++ "=" ++ v] }
  | (none, lx') => .cont lx' { st with cargo_args := st.cargo_args ++ [flag] }

/-- The passthrough arm for an unrecognized short option: `q`/`r` are
forwarded bare (combined-cluster special case); otherwise an attached
value is kept with the flag. -/
def passShort (c : Char) (lx : LexState) (st : OState) : StepRes :=
  if c = 'q' || c = 'r' then
    .cont lx { st with cargo_args := st.cargo_args ++ [String.mk ['-', c]] }
  else
    match lx.optionalValue with
    | (some v, lx') =>
      .cont lx' { st with cargo_args := st.cargo_args ++ [String.mk ['-', c] ++ v] }
    | (none, lx') =>
      .cont lx' { st with cargo_args := st.cargo_args ++ [String.mk ['-', c]] }

/-- The `Long(...)` arms of the main match of `Args::parse`, in source
order; `sub` is read-only here (the Rust arms never assign
`subcommand`). -/
def handleLong (name : String) (lx : LexState) (sub : Option Subcommand)
    (st : OState) : StepRes :=
  match name with
  | "color" =>
    parseOpt "--color" st.color lx fun v lx' =>
      match Coloring.fromStr v with
      | some c => .cont lx' { st with color := some c }
      | none => .fail (.invalidValue v)
  | "manifest-path" =>
    parseOpt "--manifest-path" st.manifest_path lx fun v lx' =>
      .cont lx' { st with manifest_path := some v }
  | "doctests" => parseFlag "--doctests" st.doctests lx { st with doctests := true }
  | "no-run" => parseFlag "--no-run" st.no_run lx { st with no_run := true }
  | "no-fail-fast" =>
    parseFlag "--no-fail-fast" st.no_fail_fast lx { st with no_fail_fast := true }
  | "ignore-run-fail" =>
    parseFlag "--ignore-run-fail" st.ignore_run_fail lx { st with ignore_run_fail := true }
  | "lib" => parseFlag "--lib" st.lib lx { st with lib := true }
  | "bin" => withValue lx fun v lx' => .cont lx' { st with bin := st.bin ++ [v] }
  | "bins" => parseFlag "--bins" st.bins lx { st with bins := true }
  | "example" =>
    withValue lx fun v lx' => .cont lx' { st with «example» := st.«example» ++ [v] }
  | "examples" => parseFlag "--examples" st.examples lx { st with examples := true }
  | "test" => withValue lx fun v lx' => .cont lx' { st with test := st.test ++ [v] }
  | "tests" => parseFlag "--tests" st.tests lx { st with tests := true }
  | "bench" => withValue lx fun v lx' => .cont lx' { st with bench := st.bench ++ [v] }
  | "benches" => parseFlag "--benches" st.benches lx { st with benches := true }
  | "all-targets" =>
    parseFlag "--all-targets" st.all_targets lx { st with all_targets := true }
  | "doc" => parseFlag "--doc" st.doc lx { st with doc := true }
  | "package" =>
    withValue lx fun v lx' => .cont lx' { st with package := st.package ++ [v] }
  | "workspace" => parseFlag "--workspace" st.workspace lx { st with workspace := true }
  | "all" => parseFlag "--all" st.workspace lx { st with workspace := true }
  | "exclude" =>
    withValue lx fun v lx' => .cont lx' { st with exclude := st.exclude ++ [v] }
  | "exclude-from-test" =>
    withValue lx fun v lx' =>
      .cont lx' { st with exclude_from_test := st.exclude_from_test ++ [v] }
  | "exclude-from-report" =>
    withValue lx fun v lx' =>
      .cont lx' { st with exclude_from_report := st.exclude_from_report ++ [v] }
  | "json" => parseFlag "--json" st.json lx { st with json := true }
  | "lcov" => parseFlag "--lcov" st.lcov lx { st with lcov := true }
  | "text" => parseFlag "--text" st.text lx { st with text := true }
  | "html" => parseFlag "--html" st.html lx { st with html := true }
  | "open" => parseFlag "--open" st.«open» lx { st with «open» := true }
  | "summary-only" =>
    parseFlag "--summary-only" st.summary_only lx { st with summary_only := true }
  | "output-path" =>
    parseOpt "--output-path" st.output_path lx fun v lx' =>
      .cont lx' { st with output_path := some v }
  | "output-dir" =>
    parseOpt "--output-dir" st.output_dir lx fun v lx' =>
      .cont lx' { st with output_dir := some v }
  | "failure-mode" =>
    parseOpt "--failure-mode" st.failure_mode lx fun v lx' =>
      .cont lx' { st with failure_mode := some v }
  | "ignore-filename-regex" =>
    parseOpt "--ignore-filename-regex" st.ignore_filename_regex lx fun v lx' =>
      .cont lx' { st with ignore_filename_regex := some v }
  | "disable-default-ignore-filename-regex" =>
    parseFlag "--disable-default-ignore-filename-regex"
      st.disable_default_ignore_filename_regex lx
      { st with disable_default_ignore_filename_regex := true }
  | "hide-instantiations" =>
    parseFlag "--hide-instantiations" st.hide_instantiations lx
      { st with hide_instantiations := true }
  | "no-cfg-coverage" =>
    parseFlag "--no-cfg-coverage" st.no_cfg_coverage lx
      { st with no_cfg_coverage := true }
  | "no-cfg-coverage-nightly" =>
    parseFlag "--no-cfg-coverage-nightly" st.no_cfg_coverage_nightly lx
      { st with no_cfg_coverage_nightly := true }
  | "no-report" => parseFlag "--no-report" st.no_report lx { st with no_report := true }
  | "fail-under-lines" =>
    parseOpt "--fail-under-lines" st.fail_under_lines lx fun v lx' =>
      match parseF64Raw v with
      | some raw => .cont lx' { st with fail_under_lines := some raw }
      | none => .fail (.invalidValue v)
  | "fail-uncovered-lines" =>
    parseOpt "--fail-uncovered-lines" st.fail_uncovered_lines lx fun v lx' =>
      match parseU64 v with
      | some n => .cont lx' { st with fail_uncovered_lines := some n }
      | none => .fail (.invalidValue v)
  | "fail-uncovered-regions" =>
    parseOpt "--fail-uncovered-regions" st.fail_uncovered_regions lx fun v lx' =>
      match parseU64 v with
      | some n => .cont lx' { st with fail_uncovered_regions := some n }
      | none => .fail (.invalidValue v)
  | "fail-uncovered-functions" =>
    parseOpt "--fail-uncovered-functions" st.fail_uncovered_functions lx fun v lx' =>
      match parseU64 v with
      | some n => .cont lx' { st with fail_uncovered_functions := some n }
      | none => .fail (.invalidValue v)
  | "show-missing-lines" =>
    parseFlag "--show-missing-lines" st.show_missing_lines lx
      { st with show_missing_lines := true }
  | "include-build-script" =>
    parseFlag "--include-build-script" st.include_build_script lx
      { st with include_build_script := true }
  | "jobs" =>
    parseOpt "--jobs" st.jobs lx fun v lx' =>
      match parseU32 v with
      | some n => .cont lx' { st with jobs := some n }
      | none => .fail (.invalidValue v)
  | "release" => parseFlag "--release" st.release lx { st with release := true }
  | "profile" =>
    parseOpt "--profile" st.profile lx fun v lx' =>
      .cont lx' { st with profile := some v }
  | "target" =>
    parseOpt "--target" st.target lx fun v lx' =>
      .cont lx' { st with target := some v }
  | "coverage-target-only" =>
    parseFlag "--coverage-target-only" st.coverage_target_only lx
      { st with coverage_target_only := true }
  | "remap-path-prefix" =>
    parseFlag "--remap-path-prefix" st.remap_path_prefix lx
      { st with remap_path_prefix := true }
  | "include-ffi" =>
    parseFlag "--include-ffi" st.include_ffi lx { st with include_ffi := true }
  | "verbose" => .cont lx { st with verbose := st.verbose + 1 }
  | "help" => if sub.isNone then .exitZero else passLong "help" lx st
  | "version" => if sub.isNone then .exitZero else .fail .unexpectedVersion
  | _ => passLong name lx st

/-- The `Short(...)` arms of the main match of `Args::parse`. -/
def handleShort (c : Char) (lx : LexState) (sub : Option Subcommand)
    (st : OState) : StepRes :=
  if c = 'p' then
    withValue lx fun v lx' => .cont lx' { st with package := st.package ++ [v] }
  else if c = 'j' then
    parseOpt "-j" st.jobs lx fun v lx' =>
      match parseU32 v with
      | some n => .cont lx' { st with jobs := some n }
      | none => .fail (.invalidValue v)
  else if c = 'r' then
    parseFlag "-r" st.release lx { st with release := true }
  else if c = 'v' then
    .cont lx { st with verbose := st.verbose + 1 }
  else if c = 'h' then
    if sub.isNone then .exitZero else passShort 'h' lx st
  else if c = 'V' then
    if sub.isNone then .exitZero else .fail .unexpectedVersion
  else
    passShort c lx st

/-- Result of the `while let Some(arg) = parser.next()?` loop. -/
inductive LoopRes
  | ok (sub : Option Subcommand) (st : OState)
  | fail (e : ParseError)
  | exitZero
deriving DecidableEq

/-- The main token loop of `Args::parse`.  Flag tokens go through
`handleLong`/`handleShort`, which cannot change the chosen subcommand;
a bare value is the subcommand (first keyword-shaped one, while none is
chosen — with the Demangle short-circuit rejecting any further token) or
a forwarded argument.  Fuel only bounds the iteration count;
`Args.parse` supplies enough for the whole token stream. -/
def parseLoop : Nat → LexState → Option Subcommand → OState → LoopRes
  | 0, _, _, _ => .fail .outOfFuel
  | n + 1, lx, sub, st =>
    match lx.next with
    | .error e => .fail e
    | .ok none => .ok sub st
    | .ok (some (arg, lx')) =>
      match arg with
      | .long name =>
        match handleLong name lx' sub st with
        | .cont lx'' st' => parseLoop n lx'' sub st'
        | .exitZero => .exitZero
        | .fail e => .fail e
      | .short c =>
        match handleShort c lx' sub st with
        | .cont lx'' st' => parseLoop n lx'' sub st'
        | .exitZero => .exitZero
        | .fail e => .fail e
      | .value v =>
        match sub with
        | some _ => parseLoop n lx' sub { st with cargo_args := st.cargo_args ++ [v] }
        | none =>
          match Subcommand.fromStr v with
          | none => parseLoop n lx' none { st with cargo_args := st.cargo_args ++ [v] }
          | some sc =>
            if sc = .demangle then
              match lx'.next with
              | .error e => .fail e
              | .ok (some (arg2, _)) => .fail (.unexpectedArg (formatArg arg2))
              | .ok none => parseLoop n lx' (some sc) st
            else
              parseLoop n lx' (some sc) st

/-! ### The configuration aggregate and the assembler -/

/-- The `LlvmCovOptions` record of src/cli.rs (`fail_under_lines` keeps
the validated raw literal, see `parseF64Raw`). -/
structure LlvmCovOptions where
  json : Bool
  lcov : Bool
  text : Bool
  html : Bool
  «open» : Bool
  summary_only : Bool
  output_path : Option String
  output_dir : Option String
  failure_mode : Option String
  ignore_filename_regex : Option String
  disable_default_ignore_filename_regex : Bool
  hide_instantiations : Bool
  no_cfg_coverage : Bool
  no_cfg_coverage_nightly : Bool
  no_report : Bool
  fail_under_lines : Option String
  fail_uncovered_lines : Option Nat
  fail_uncovered_regions : Option Nat
  fail_uncovered_functions : Option Nat
  show_missing_lines : Bool
  include_build_script : Bool
deriving DecidableEq

/-- The `BuildOptions` record of src/cli.rs; `verbose` is the
`usize → u8` saturating conversion of the occurrence count. -/
structure BuildOptions where
  jobs : Option Nat
  release : Bool
  profile : Option String
  target : Option String
  coverage_target_only : Bool
  verbose : Nat
  color : Option Coloring
  remap_path_prefix : Bool
  include_ffi : Bool
deriving DecidableEq

/-- The `ManifestOptions` record of src/cli.rs. -/
structure ManifestOptions where
  manifest_path : Option String
deriving DecidableEq

/-- The `Args` aggregate of src/cli.rs. -/
structure Args where
  subcommand : Subcommand
  cov : LlvmCovOptions
  doctests : Bool
  no_run : Bool
  no_fail_fast : Bool
  ignore_run_fail : Bool
  lib : Bool
  bin : List String
  bins : Bool
  «example» : List String
  examples : Bool
  test : List String
  tests : Bool
  bench : List String
  benches : Bool
  all_targets : Bool
  doc : Bool
  package : List String
  workspace : Bool
  exclude : List String
  exclude_from_test : List String
  exclude_from_report : List String
  build : BuildOptions
  manifest : ManifestOptions
  cargo_args : List String
  rest : List String
deriving DecidableEq

/-- Outcome of `Args::parse`: a parsed configuration, a failure, or the
immediate help/version process exit with status 0. -/
inductive ParseResult
  | ok (a : Args)
  | err (e : ParseError)
  | exitZero
deriving DecidableEq

/-- The with-list rendering of `requires` (src/cli.rs): one alternative
verbatim, two joined with either/or, three or more as an Oxford-comma
list. -/
def requiresWith : List String → String
  | [] => ""
  | [a] => a
  | [a, b] => "either " ++ a ++ " or " ++ b
  | l =>
    (l.dropLast.foldl (fun acc f => acc ++ f ++ ", ") "") ++ "or " ++
      (l.getLast?.getD "")

/-- The code after the token loop of `Args::parse`: default the
subcommand to `Test`, run the cross-flag check (`--exclude` requires
`--workspace`), synthesize the extra `-v...` passthrough token when the
verbosity count exceeds 1, and assemble the `Args` aggregate (with the
saturating `usize → u8` conversion of the count).  The process-global
`term::verbose::set` side effect has no observable state here. -/
def finish (sub : Option Subcommand) (st : OState) (rest : List String) :
    ParseResult :=
  let subcommand := sub.getD .test
  if !st.exclude.isEmpty && !st.workspace then
    .err (.requires "--exclude" (requiresWith ["--workspace"]))
  else
    let cargo_args :=
      if st.verbose > 1 then
        st.cargo_args ++ [String.mk ('-' :: List.replicate (st.verbose - 1) 'v')]
      else
        st.cargo_args
    .ok {
      subcommand
      cov := {
        json := st.json
        lcov := st.lcov
        text := st.text
        html := st.html
        «open» := st.«open»
        summary_only := st.summary_only
        output_path := st.output_path
        output_dir := st.output_dir
        failure_mode := st.failure_mode
        ignore_filename_regex := st.ignore_filename_regex
        disable_default_ignore_filename_regex :=
          st.disable_default_ignore_filename_regex
        hide_instantiations := st.hide_instantiations
        no_cfg_coverage := st.no_cfg_coverage
        no_cfg_coverage_nightly := st.no_cfg_coverage_nightly
        no_report := st.no_report
        fail_under_lines := st.fail_under_lines
        fail_uncovered_lines := st.fail_uncovered_lines
        fail_uncovered_regions := st.fail_uncovered_regions
        fail_uncovered_functions := st.fail_uncovered_functions
        show_missing_lines := st.show_missing_lines
        include_build_script := st.include_build_script
      }
      doctests := st.doctests
      no_run := st.no_run
      no_fail_fast := st.no_fail_fast
      ignore_run_fail := st.ignore_run_fail
      lib := st.lib
      bin := st.bin
      bins := st.bins
      «example» := st.«example»
      examples := st.examples
      test := st.test
      tests := st.tests
      bench := st.bench
      benches := st.benches
      all_targets := st.all_targets
      doc := st.doc
      package := st.package
      workspace := st.workspace
      exclude := st.exclude
      exclude_from_test := st.exclude_from_test
      exclude_from_report := st.exclude_from_report
      build := {
        jobs := st.jobs
        release := st.release
        profile := st.profile
        target := st.target
        coverage_target_only := st.coverage_target_only
        verbose := min st.verbose 255
        color := st.color
        remap_path_prefix := st.remap_path_prefix
        include_ffi := st.include_ffi
      }
      manifest := { manifest_path := st.manifest_path }
      cargo_args
      rest
    }

/-- The split of the raw stream at the first literal `--` (the
`for arg in &mut raw_args` loop of `Args::parse` plus the trailing
`collect`): the marker itself is discarded. -/
def splitDashDash : List String → List String × List String
  | [] => ([], [])
  | a :: r =>
    if a = "--" then ([], r)
    else
      let (x, y) := splitDashDash r
      (a :: x, y)

/-- Loop fuel that dominates the number of iterations: every iteration
strictly shrinks the total character count of the unconsumed stream
(plus two per remaining argument). -/
def fuelFor (args : List String) : Nat :=
  (args.map fun a => a.length + 2).sum + 1

/-- `Args::parse` (src/cli.rs) on a decoded argument vector: drop the
program name, require the literal "llvm-cov", split at the first `--`,
run the token loop, and finish with the cross-flag check and assembly. -/
def Args.parse (argv : List String) : ParseResult :=
  match argv with
  | _ :: a :: rest =>
    if a = "llvm-cov" then
      let p := splitDashDash rest
      match parseLoop (fuelFor p.1) ⟨p.1, .none, false⟩ none initOState with
      | .ok sub st => finish sub st p.2
      | .fail e => .err e
      | .exitZero => .exitZero
    else
      .err (.unexpectedSubcommand a)
  | _ => .err .missingSubcommand

/-- Projection under success: the parsed `Args` when `Args.parse`
succeeds, `none` on failure or help/version exit. -/
def parseOk (argv : List String) : Option Args :=
  match Args.parse argv with
  | .ok a => some a
  | _ => none

/-! ### Shared lemmas about the split at the first literal `--` -/

/-- Unfolding of `splitDashDash` on a non-marker head token. -/
theorem splitDashDash_cons_ne (a : String) (r : List String) (h : a ≠ "--") :
    splitDashDash (a :: r) = (a :: (splitDashDash r).1, (splitDashDash r).2) := by
  rw [splitDashDash, if_neg h]

/-- A stream without the marker is classified whole, with an empty
trailing segment. -/
theorem splitDashDash_no_marker (xs : List String) (h : "--" ∉ xs) :
    splitDashDash xs = (xs, []) := by
  induction xs with
  | nil => rfl
  | cons a r ih =>
    have ha : a ≠ "--" := fun hc => h (hc ▸ List.mem_cons_self a r)
    have hr : "--" ∉ r := fun hc => h (List.mem_cons_of_mem a hc)
    rw [splitDashDash_cons_ne a r ha, ih hr]

/-- Splitting at the first marker: everything before it is classified,
everything strictly after it is the raw trailing segment, and the marker
itself lands in neither part. -/
theorem splitDashDash_append (xs ys : List String) (h : "--" ∉ xs) :
    splitDashDash (xs ++ "--" :: ys) = (xs, ys) := by
  induction xs with
  | nil => simp [splitDashDash]
  | cons a r ih =>
    have ha : a ≠ "--" := fun hc => h (hc ▸ List.mem_cons_self a r)
    have hr : "--" ∉ r := fun hc => h (List.mem_cons_of_mem a hc)
    rw [List.cons_append, splitDashDash_cons_ne a _ ha, ih hr]

/-- The raw trailing segment only parameterizes the `rest` field of the
assembled aggregate: `finish` is otherwise independent of it. -/
theorem finish_rest (sub : Option Subcommand) (st : OState) (ys : List String) :
    finish sub st ys =
      (match finish sub st [] with
       | .ok a => .ok { a with rest := ys }
       | r => r) := by
  by_cases hc : (!st.exclude.isEmpty && !st.workspace) = true
  · rw [finish, if_pos hc, finish, if_pos hc]
  · rw [finish, if_neg hc, finish, if_neg hc]

/-! ### The claims -/

/-- C7: after dropping the program-name token, the next token must equal
the literal "llvm-cov"; any other second token fails with an
unexpected-subcommand error naming it, and an input with fewer than two
tokens fails with a missing-subcommand error. -/
theorem c7_envelope (x y : String) (r : List String) (h : y ≠ "llvm-cov") :
    Args.parse [] = .err .missingSubcommand ∧
    Args.parse [x] = .err .missingSubcommand ∧
    Args.parse (x :: y :: r) = .err (.unexpectedSubcommand y) := by
  refine ⟨rfl, rfl, ?_⟩
  show (if y = "llvm-cov" then _ else ParseResult.err (.unexpectedSubcommand y)) = _
  rw [if_neg h]

/-- Witness for C7 at a concrete input (cf. the spec's
`["cargo","notllvm-cov"]` scenario). -/
theorem c7_envelope_witness :
    Args.parse [] = .err .missingSubcommand ∧
    Args.parse ["cargo"] = .err .missingSubcommand ∧
    Args.parse ["cargo", "notllvm-cov", "x"] = .err (.unexpectedSubcommand "notllvm-cov") :=
  c7_envelope "cargo" "notllvm-cov" ["x"] (by decide)

/-- C5 (code evaluation at the failing input): `--exclude-from-test`
without `--workspace` parses successfully — the cross-flag check of
`Args::parse` tests only `exclude`, so no requires-error is raised even
though the field's own (disabled-derive) documentation in src/cli.rs
declares `requires = "workspace"` just like `exclude`. -/
theorem c5_exclude_from_test_unchecked :
    (parseOk ["cargo", "llvm-cov", "--exclude-from-test", "foo"]).map
      (fun a => (a.exclude_from_test, a.workspace)) = some (["foo"], false) := by
  rfl

/-- C10: `--workspace` and `--all` are two spellings of the same boolean
slot, so one occurrence of each is rejected as a duplicate (named by the
second spelling found), while either spelling alone succeeds. -/
theorem c10_workspace_all_one_slot :
    Args.parse ["cargo", "llvm-cov", "--workspace", "--all"] = .err (.multiArg "--all") ∧
    Args.parse ["cargo", "llvm-cov", "--all", "--workspace"] = .err (.multiArg "--workspace") ∧
    (parseOk ["cargo", "llvm-cov", "--workspace"]).map (fun a => a.workspace) = some true ∧
    (parseOk ["cargo", "llvm-cov", "--all"]).map (fun a => a.workspace) = some true := by
  refine ⟨rfl, rfl, rfl, rfl⟩

/-- C9: the parser enforces no mutual exclusion between the
output-format booleans: every combination of `--json`, `--lcov`,
`--text`, `--html` (each at most once) parses with exactly the supplied
booleans set; only a repeated occurrence of the same boolean fails. -/
theorem c9_no_format_conflict :
    (parseOk ["cargo", "llvm-cov", "--json", "--lcov"]).map
      (fun a => (a.cov.json, a.cov.lcov, a.cov.text, a.cov.html)) =
        some (true, true, false, false) ∧
    (parseOk ["cargo", "llvm-cov", "--json", "--text"]).map
      (fun a => (a.cov.json, a.cov.lcov, a.cov.text, a.cov.html)) =
        some (true, false, true, false) ∧
    (parseOk ["cargo", "llvm-cov", "--json", "--html"]).map
      (fun a => (a.cov.json, a.cov.lcov, a.cov.text, a.cov.html)) =
        some (true, false, false, true) ∧
    (parseOk ["cargo", "llvm-cov", "--lcov", "--text"]).map
      (fun a => (a.cov.json, a.cov.lcov, a.cov.text, a.cov.html)) =
        some (false, true, true, false) ∧
    (parseOk ["cargo", "llvm-cov", "--lcov", "--html"]).map
      (fun a => (a.cov.json, a.cov.lcov, a.cov.text, a.cov.html)) =
        some (false, true, false, true) ∧
    (parseOk ["cargo", "llvm-cov", "--text", "--html"]).map
      (fun a => (a.cov.json, a.cov.lcov, a.cov.text, a.cov.html)) =
        some (false, false, true, true) ∧
    (parseOk ["cargo", "llvm-cov", "--json", "--lcov", "--text", "--html"]).map
      (fun a => (a.cov.json, a.cov.lcov, a.cov.text, a.cov.html)) =
        some (true, true, true, true) ∧
    Args.parse ["cargo", "llvm-cov", "--json", "--json"] = .err (.multiArg "--json") ∧
    Args.parse ["cargo", "llvm-cov", "--lcov", "--lcov"] = .err (.multiArg "--lcov") ∧
    Args.parse ["cargo", "llvm-cov", "--text", "--text"] = .err (.multiArg "--text") ∧
    Args.parse ["cargo", "llvm-cov", "--html", "--html"] = .err (.multiArg "--html") := by
  refine ⟨rfl, rfl, rfl, rfl, rfl, rfl, rfl, rfl, rfl, rfl, rfl⟩

/-- C4: after the stream is consumed, a non-empty `exclude` list with
`workspace` still false fails with the requires-error naming
`--workspace`; with `--workspace` (or its alias `--all`) the same
`--exclude` values parse successfully. -/
theorem c4_exclude_requires_workspace
    (sub : Option Subcommand) (st : OState) (rest : List String)
    (h1 : st.exclude ≠ []) (h2 : st.workspace = false) :
    finish sub st rest = .err (.requires "--exclude" "--workspace") ∧
    Args.parse ["cargo", "llvm-cov", "--exclude", "pkgA"] =
      .err (.requires "--exclude" "--workspace") ∧
    (parseOk ["cargo", "llvm-cov", "--workspace", "--exclude", "pkgA"]).map
      (fun a => (a.workspace, a.exclude)) = some (true, ["pkgA"]) ∧
    (parseOk ["cargo", "llvm-cov", "--all", "--exclude", "pkgA"]).map
      (fun a => (a.workspace, a.exclude)) = some (true, ["pkgA"]) := by
  refine ⟨?_, rfl, rfl, rfl⟩
  have hE : st.exclude.isEmpty = false := by
    cases hx : st.exclude with
    | nil => exact absurd hx h1
    | cons e es => rfl
  rw [finish, if_pos (by rw [hE, h2]; rfl)]
  rfl

/-- Witness for C4: the requires-error branch of `finish` fires on a
concrete accumulated state. -/
theorem c4_exclude_requires_workspace_witness :
    finish none { initOState with exclude := ["pkgA"] } [] =
      .err (.requires "--exclude" "--workspace") ∧
    Args.parse ["cargo", "llvm-cov", "--exclude", "pkgA"] =
      .err (.requires "--exclude" "--workspace") ∧
    (parseOk ["cargo", "llvm-cov", "--workspace", "--exclude", "pkgA"]).map
      (fun a => (a.workspace, a.exclude)) = some (true, ["pkgA"]) ∧
    (parseOk ["cargo", "llvm-cov", "--all", "--exclude", "pkgA"]).map
      (fun a => (a.workspace, a.exclude)) = some (true, ["pkgA"]) :=
  c4_exclude_requires_workspace none { initOState with exclude := ["pkgA"] } []
    (by decide) (by decide)

/-- C3: tokens strictly after the first literal `--` parameterize only
the `rest` field of the result — the parse outcome is otherwise that of
the input truncated before the marker (so the marker is discarded and
the trailing tokens are never classified, however flag-like); plus the
claim's concrete scenario. -/
theorem c3_raw_trailing (xs ys : List String) (h : "--" ∉ xs) :
    Args.parse ("cargo" :: "llvm-cov" :: (xs ++ "--" :: ys)) =
      (match Args.parse ("cargo" :: "llvm-cov" :: xs) with
       | .ok a => .ok { a with rest := ys }
       | r => r) ∧
    (parseOk ["cargo", "llvm-cov", "run", "--release", "--", "--", "foo"]).map
      (fun a => (a.subcommand, a.rest, a.cargo_args)) =
        some (.run, ["--", "foo"], []) := by
  refine ⟨?_, rfl⟩
  have e1 : Args.parse ("cargo" :: "llvm-cov" :: (xs ++ "--" :: ys)) =
      (match parseLoop (fuelFor xs) ⟨xs, .none, false⟩ none initOState with
       | .ok sub st => finish sub st ys
       | .fail e => .err e
       | .exitZero => .exitZero) := by
    show (match parseLoop (fuelFor (splitDashDash (xs ++ "--" :: ys)).1)
            ⟨(splitDashDash (xs ++ "--" :: ys)).1, .none, false⟩ none initOState with
          | .ok sub st => finish sub st (splitDashDash (xs ++ "--" :: ys)).2
          | .fail e => .err e
          | .exitZero => .exitZero) = _
    rw [splitDashDash_append xs ys h]
  have e2 : Args.parse ("cargo" :: "llvm-cov" :: xs) =
      (match parseLoop (fuelFor xs) ⟨xs, .none, false⟩ none initOState with
       | .ok sub st => finish sub st []
       | .fail e => .err e
       | .exitZero => .exitZero) := by
    show (match parseLoop (fuelFor (splitDashDash xs).1)
            ⟨(splitDashDash xs).1, .none, false⟩ none initOState with
          | .ok sub st => finish sub st (splitDashDash xs).2
          | .fail e => .err e
          | .exitZero => .exitZero) = _
    rw [splitDashDash_no_marker xs h]
  rw [e1, e2]
  cases hres : parseLoop (fuelFor xs) ⟨xs, .none, false⟩ none initOState with
  | ok sub st => exact finish_rest sub st ys
  | fail e => rfl
  | exitZero => rfl

/-- Witness for C3 at the claim's concrete scenario. -/
theorem c3_raw_trailing_witness :
    (Args.parse ["cargo", "llvm-cov", "run", "--release", "--", "--", "foo"] =
      (match Args.parse ["cargo", "llvm-cov", "run", "--release"] with
       | .ok a => .ok { a with rest := ["--", "foo"] }
       | r => r)) ∧
    (parseOk ["cargo", "llvm-cov", "run", "--release", "--", "--", "foo"]).map
      (fun a => (a.subcommand, a.rest, a.cargo_args)) =
        some (.run, ["--", "foo"], []) :=
  c3_raw_trailing ["run", "--release"] ["--", "foo"] (by decide)

/-- Classification always recognizes a token that is not the lone `--`
separator. -/
theorem nextFromArgs_cons_isSome (b : Bool) (a : String) (r : List String)
    (h : a ≠ "--") : (nextFromArgs b (a :: r)).isSome = true := by
  cases b
  · rw [nextFromArgs]
    split
    · rename_i heq
      exact absurd (String.ext (heq.trans (by rfl))) h
    · rename_i x0 rest' hne heq
      rcases hse : splitEq rest' with ⟨nm, v⟩
      cases v <;> rfl
    · rfl
    · rfl
  · rfl

/-- Selecting the `demangle` subcommand short-circuits: whatever token
the tokenizer recognizes next is rejected as unexpected. -/
theorem parseLoop_demangle_step (n : Nat) (lx lx' : LexState) (st : OState)
    (h1 : lx.next = .ok (some (.value "demangle", lx')))
    (arg2 : Arg) (lx2 : LexState)
    (h2 : lx'.next = .ok (some (arg2, lx2))) :
    parseLoop (n + 1) lx none st = .fail (.unexpectedArg (formatArg arg2)) := by
  rw [parseLoop, h1]
  show (match lx'.next with
        | .error e => LoopRes.fail e
        | .ok (some (a2, _)) => .fail (.unexpectedArg (formatArg a2))
        | .ok none => parseLoop n lx' (some .demangle) st) = _
  rw [h2]

/-- C6: once the bare value `demangle` is selected, any further token in
the classified stream fails the parse with an unexpected-argument error
(naming the token the tokenizer recognized next), and `demangle` alone
parses to the Demangle subcommand. -/
theorem c6_demangle_terminal (tok : String) (toks : List String) (h : tok ≠ "--") :
    (∃ s, Args.parse ("cargo" :: "llvm-cov" :: "demangle" :: tok :: toks) =
        .err (.unexpectedArg s)) ∧
    (parseOk ["cargo", "llvm-cov", "demangle"]).map (fun a => a.subcommand) =
      some .demangle := by
  refine ⟨?_, rfl⟩
  have hsp : splitDashDash ("demangle" :: tok :: toks) =
      ("demangle" :: tok :: (splitDashDash toks).1, (splitDashDash toks).2) := by
    rw [splitDashDash_cons_ne _ _ (by decide), splitDashDash_cons_ne _ _ h]
  obtain ⟨⟨arg2, lx2⟩, hp⟩ :
      ∃ p, nextFromArgs false (tok :: (splitDashDash toks).1) = some p :=
    Option.isSome_iff_exists.mp (nextFromArgs_cons_isSome false tok _ h)
  have e3 : (⟨tok :: (splitDashDash toks).1, .none, false⟩ : LexState).next =
      .ok (some (arg2, lx2)) := by
    show Except.ok (nextFromArgs false (tok :: (splitDashDash toks).1)) = _
    rw [hp]
  have hloop : parseLoop (fuelFor ("demangle" :: tok :: (splitDashDash toks).1))
      ⟨"demangle" :: tok :: (splitDashDash toks).1, .none, false⟩ none initOState =
      .fail (.unexpectedArg (formatArg arg2)) := by
    rw [fuelFor]
    exact parseLoop_demangle_step _
      ⟨"demangle" :: tok :: (splitDashDash toks).1, .none, false⟩
      ⟨tok :: (splitDashDash toks).1, .none, false⟩ initOState rfl arg2 lx2 e3
  refine ⟨formatArg arg2, ?_⟩
  show (match parseLoop (fuelFor (splitDashDash ("demangle" :: tok :: toks)).1)
          ⟨(splitDashDash ("demangle" :: tok :: toks)).1, .none, false⟩ none initOState with
        | .ok sub st => finish sub st (splitDashDash ("demangle" :: tok :: toks)).2
        | .fail e => .err e
        | .exitZero => .exitZero) = _
  rw [hsp]
  show (match parseLoop (fuelFor ("demangle" :: tok :: (splitDashDash toks).1))
          ⟨"demangle" :: tok :: (splitDashDash toks).1, .none, false⟩ none initOState with
        | .ok sub st => finish sub st (splitDashDash toks).2
        | .fail e => .err e
        | .exitZero => .exitZero) = _
  rw [hloop]

/-- Witness for C6 at the spec's concrete scenario
`["cargo","llvm-cov","demangle","extra"]`. -/
theorem c6_demangle_terminal_witness :
    (∃ s, Args.parse ["cargo", "llvm-cov", "demangle", "extra"] =
        .err (.unexpectedArg s)) ∧
    (parseOk ["cargo", "llvm-cov", "demangle"]).map (fun a => a.subcommand) =
      some .demangle :=
  c6_demangle_terminal "extra" [] (by decide)

/-- C2 counterexample: the claim says that when the first bare value is
not a keyword, no later bare value can select a subcommand — but on
`["cargo","llvm-cov","foo","run"]` the non-keyword "foo" is forwarded
and the later bare value "run" still becomes the subcommand, because
the code re-tries keyword resolution on every bare value until one
succeeds. -/
theorem c2_counterexample :
    (parseOk ["cargo", "llvm-cov", "foo", "run"]).map
      (fun a => (a.subcommand, a.cargo_args)) = some (.run, ["foo"]) := by
  rfl

/-- C2 (amended): subcommand resolution happens at most once, on the
first keyword-shaped bare value: (1) once a subcommand is chosen the
loop can never change it; (2) under a chosen subcommand every bare value
is appended to `cargo_args` in order; (3) while none is chosen, a
keyword-shaped bare value becomes the subcommand (Demangle aside); and
the second keyword-shaped bare value of
`["cargo","llvm-cov","run","t"]` is forwarded literally. -/
theorem c2_subcommand_resolution :
    (∀ fuel lx st c sub' st',
        parseLoop fuel lx (some c) st = .ok sub' st' → sub' = some c) ∧
    (∀ fuel lx lx' v st c, lx.next = .ok (some (.value v, lx')) →
        parseLoop (fuel + 1) lx (some c) st =
          parseLoop fuel lx' (some c)
            { st with cargo_args := st.cargo_args ++ [v] }) ∧
    (∀ fuel lx lx' v st c, lx.next = .ok (some (.value v, lx')) →
        Subcommand.fromStr v = some c → c ≠ .demangle →
        parseLoop (fuel + 1) lx none st = parseLoop fuel lx' (some c) st) ∧
    (parseOk ["cargo", "llvm-cov", "run", "t"]).map
      (fun a => (a.subcommand, a.cargo_args)) = some (.run, ["t"]) := by
  refine ⟨?_, ?_, ?_, rfl⟩
  · intro fuel
    induction fuel with
    | zero =>
      intro lx st c sub' st' hp
      rw [parseLoop] at hp
      cases hp
    | succ n ih =>
      intro lx st c sub' st' hp
      rw [parseLoop] at hp
      split at hp
      · cases hp
      · injection hp with h1 h2
        exact h1.symm
      · split at hp
        · split at hp
          · exact ih _ _ _ _ _ hp
          · cases hp
          · cases hp
        · split at hp
          · exact ih _ _ _ _ _ hp
          · cases hp
          · cases hp
        · exact ih _ _ _ _ _ hp
  · intro fuel lx lx' v st c h1
    rw [parseLoop, h1]
  · intro fuel lx lx' v st c h1 h2 h3
    rw [parseLoop, h1]
    show (match Subcommand.fromStr v with
          | none =>
            parseLoop fuel lx' none { st with cargo_args := st.cargo_args ++ [v] }
          | some sc =>
            if sc = Subcommand.demangle then
              match lx'.next with
              | .error e => LoopRes.fail e
              | .ok (some (arg2, _)) => .fail (.unexpectedArg (formatArg arg2))
              | .ok none => parseLoop fuel lx' (some sc) st
            else
              parseLoop fuel lx' (some sc) st) = _
    rw [h2]
    show (if c = Subcommand.demangle then
            match lx'.next with
            | .error e => LoopRes.fail e
            | .ok (some (arg2, _)) => LoopRes.fail (.unexpectedArg (formatArg arg2))
            | .ok none => parseLoop fuel lx' (some c) st
          else
            parseLoop fuel lx' (some c) st) = _
    rw [if_neg h3]

/-- Witness for C2 (amended) at concrete loop states. -/
theorem c2_subcommand_resolution_witness :
    (some Subcommand.run = some Subcommand.run) ∧
    (parseLoop 1 ⟨["x"], .none, false⟩ (some .run) initOState =
      parseLoop 0 ⟨[], .none, false⟩ (some .run)
        { initOState with cargo_args := initOState.cargo_args ++ ["x"] }) ∧
    (parseLoop 1 ⟨["run"], .none, false⟩ none initOState =
      parseLoop 0 ⟨[], .none, false⟩ (some .run) initOState) ∧
    (parseOk ["cargo", "llvm-cov", "run", "t"]).map
      (fun a => (a.subcommand, a.cargo_args)) = some (.run, ["t"]) :=
  ⟨c2_subcommand_resolution.1 2 ⟨["x"], .none, false⟩ initOState .run (some .run)
      { initOState with cargo_args := initOState.cargo_args ++ ["x"] } (by rfl),
   c2_subcommand_resolution.2.1 0 ⟨["x"], .none, false⟩ ⟨[], .none, false⟩ "x"
      initOState .run (by rfl),
   c2_subcommand_resolution.2.2.1 0 ⟨["run"], .none, false⟩ ⟨[], .none, false⟩
      "run" initOState .run (by rfl) (by rfl) (by decide),
   c2_subcommand_resolution.2.2.2⟩

/-- Processing `n` occurrences of `-v` adds exactly `n` to the verbosity
count and leaves everything else (including the chosen subcommand)
untouched. -/
theorem parseLoop_verbose (n : Nat) :
    ∀ fuel sub st, n + 1 ≤ fuel →
      parseLoop fuel ⟨List.replicate n "-v", .none, false⟩ sub st =
        .ok sub { st with verbose := st.verbose + n } := by
  induction n with
  | zero =>
    intro fuel sub st hf
    obtain ⟨m, rfl⟩ : ∃ m, fuel = m + 1 := ⟨fuel - 1, by omega⟩
    rfl
  | succ k ih =>
    intro fuel sub st hf
    obtain ⟨m, rfl⟩ : ∃ m, fuel = m + 1 := ⟨fuel - 1, by omega⟩
    rw [List.replicate_succ, parseLoop]
    show (parseLoop m ⟨List.replicate k "-v", .none, false⟩ sub
        { st with verbose := st.verbose + 1 }) = _
    rw [ih m sub { st with verbose := st.verbose + 1 } (by omega)]
    show LoopRes.ok sub { st with verbose := st.verbose + 1 + k } = _
    have h3 : st.verbose + 1 + k = st.verbose + (k + 1) := by omega
    rw [h3]

/-- C8: `n ≥ 1` occurrences of `-v` yield an internal count of exactly
`n`; the assembled result stores the saturating-to-255 conversion of the
count, and for `n > 1` a single synthesized token `-` followed by
`n - 1` repetitions of `v` is appended to `cargo_args`. -/
theorem c8_verbose_counting (n : Nat) (h : 1 ≤ n) :
    parseLoop (fuelFor (List.replicate n "-v"))
        ⟨List.replicate n "-v", .none, false⟩ none initOState =
      .ok none { initOState with verbose := n } ∧
    (parseOk ("cargo" :: "llvm-cov" :: List.replicate n "-v")).map
        (fun a => (a.build.verbose, a.cargo_args)) =
      some (min n 255,
        if 1 < n then [String.mk ('-' :: List.replicate (n - 1) 'v')] else []) := by
  have hfuel : n + 1 ≤ fuelFor (List.replicate n "-v") := by
    rw [fuelFor, List.map_replicate, List.sum_replicate, smul_eq_mul]
    have h4 : "-v".length + 2 = 4 := rfl
    rw [h4]
    omega
  have hloop := parseLoop_verbose n (fuelFor (List.replicate n "-v"))
    none initOState hfuel
  have hloop' : parseLoop (fuelFor (List.replicate n "-v"))
      ⟨List.replicate n "-v", .none, false⟩ none initOState =
      .ok none { initOState with verbose := 0 + n } := hloop
  rw [Nat.zero_add] at hloop'
  refine ⟨hloop', ?_⟩
  have hsplit : splitDashDash (List.replicate n "-v") = (List.replicate n "-v", []) :=
    splitDashDash_no_marker _ (by
      intro hmem
      rw [List.mem_replicate] at hmem
      exact absurd hmem.2 (by decide))
  have hparse : Args.parse ("cargo" :: "llvm-cov" :: List.replicate n "-v") =
      finish none { initOState with verbose := n } [] := by
    show (match parseLoop (fuelFor (splitDashDash (List.replicate n "-v")).1)
            ⟨(splitDashDash (List.replicate n "-v")).1, .none, false⟩ none initOState with
          | .ok sub st => finish sub st (splitDashDash (List.replicate n "-v")).2
          | .fail e => .err e
          | .exitZero => .exitZero) = _
    rw [hsplit]
    show (match parseLoop (fuelFor (List.replicate n "-v"))
            ⟨List.replicate n "-v", .none, false⟩ none initOState with
          | .ok sub st => finish sub st []
          | .fail e => .err e
          | .exitZero => .exitZero) = _
    rw [hloop']
  rw [parseOk, hparse]
  rfl

/-- Witness for C8 at `n = 3` (the spec's `-v -v -v` scenario) and at
`n = 300` (saturation past the u8 maximum). -/
theorem c8_verbose_counting_witness :
    (parseLoop (fuelFor (List.replicate 3 "-v"))
        ⟨List.replicate 3 "-v", .none, false⟩ none initOState =
      .ok none { initOState with verbose := 3 } ∧
    (parseOk ("cargo" :: "llvm-cov" :: List.replicate 3 "-v")).map
        (fun a => (a.build.verbose, a.cargo_args)) =
      some (min 3 255,
        if 1 < 3 then [String.mk ('-' :: List.replicate (3 - 1) 'v')] else [])) ∧
    (parseLoop (fuelFor (List.replicate 300 "-v"))
        ⟨List.replicate 300 "-v", .none, false⟩ none initOState =
      .ok none { initOState with verbose := 300 } ∧
    (parseOk ("cargo" :: "llvm-cov" :: List.replicate 300 "-v")).map
        (fun a => (a.build.verbose, a.cargo_args)) =
      some (min 300 255,
        if 1 < 300 then [String.mk ('-' :: List.replicate (300 - 1) 'v')] else [])) :=
  ⟨c8_verbose_counting 3 (by decide), c8_verbose_counting 300 (by decide)⟩

/-- Every spelling handled by a `parse_flag!` arm of `Args::parse`
(boolean flags; `--workspace`/`--all` share one slot and `-r` is the
short spelling of `--release`). -/
def boolFlagSpellings : List String :=
  ["--doctests", "--no-run", "--no-fail-fast", "--ignore-run-fail", "--lib",
   "--bins", "--examples", "--tests", "--benches", "--all-targets", "--doc",
   "--workspace", "--all", "--json", "--lcov", "--text", "--html", "--open",
   "--summary-only", "--disable-default-ignore-filename-regex",
   "--hide-instantiations", "--no-cfg-coverage", "--no-cfg-coverage-nightly",
   "--no-report", "--show-missing-lines", "--include-build-script",
   "--release", "-r", "--coverage-target-only", "--remap-path-prefix",
   "--include-ffi"]

/-- Every spelling handled by a `parse_opt!` arm of `Args::parse`
(unique-valued options), paired with a conversion-valid value. -/
def uniqueOptCases : List (String × String) :=
  [("--color", "auto"), ("--manifest-path", "Cargo.toml"),
   ("--output-path", "out.json"), ("--output-dir", "dir"),
   ("--failure-mode", "any"), ("--ignore-filename-regex", "x"),
   ("--fail-under-lines", "10"), ("--fail-uncovered-lines", "1"),
   ("--fail-uncovered-regions", "1"), ("--fail-uncovered-functions", "1"),
   ("--jobs", "4"), ("-j", "4"), ("--profile", "dev"), ("--target", "tt")]

/-- C1: every boolean (`parse_flag!`) and unique-valued (`parse_opt!`)
flag supplied twice fails with a duplicate-argument error naming the
flag as found, in every long/short spelling and across mixed spellings
of the same slot; every multi-valued flag supplied twice succeeds with
both values retained in order of appearance. -/
theorem c1_flag_arity :
    (boolFlagSpellings.all fun s =>
        Args.parse ["cargo", "llvm-cov", s, s] == .err (.multiArg s)) = true ∧
    (uniqueOptCases.all fun p =>
        Args.parse ["cargo", "llvm-cov", p.1, p.2, p.1, p.2] ==
          .err (.multiArg p.1)) = true ∧
    Args.parse ["cargo", "llvm-cov", "--release", "-r"] = .err (.multiArg "-r") ∧
    Args.parse ["cargo", "llvm-cov", "-r", "--release"] =
      .err (.multiArg "--release") ∧
    Args.parse ["cargo", "llvm-cov", "--jobs", "4", "-j", "4"] =
      .err (.multiArg "-j") ∧
    Args.parse ["cargo", "llvm-cov", "-j", "4", "--jobs", "4"] =
      .err (.multiArg "--jobs") ∧
    (parseOk ["cargo", "llvm-cov", "--bin", "a", "--bin", "b"]).map
      (fun a => a.bin) = some ["a", "b"] ∧
    (parseOk ["cargo", "llvm-cov", "--example", "a", "--example", "b"]).map
      (fun a => a.«example») = some ["a", "b"] ∧
    (parseOk ["cargo", "llvm-cov", "--test", "a", "--test", "b"]).map
      (fun a => a.test) = some ["a", "b"] ∧
    (parseOk ["cargo", "llvm-cov", "--bench", "a", "--bench", "b"]).map
      (fun a => a.bench) = some ["a", "b"] ∧
    (parseOk ["cargo", "llvm-cov", "--package", "a", "--package", "b"]).map
      (fun a => a.package) = some ["a", "b"] ∧
    (parseOk ["cargo", "llvm-cov", "-p", "a", "--package", "b"]).map
      (fun a => a.package) = some ["a", "b"] ∧
    (parseOk ["cargo", "llvm-cov", "--workspace", "--exclude", "a",
        "--exclude", "b"]).map
      (fun a => a.exclude) = some ["a", "b"] ∧
    (parseOk ["cargo", "llvm-cov", "--exclude-from-test", "a",
        "--exclude-from-test", "b"]).map
      (fun a => a.exclude_from_test) = some ["a", "b"] ∧
    (parseOk ["cargo", "llvm-cov", "--exclude-from-report", "a",
        "--exclude-from-report", "b"]).map
      (fun a => a.exclude_from_report) = some ["a", "b"] := by
  exact ⟨by decide, by decide, rfl, rfl, rfl, rfl, rfl, rfl, rfl, rfl, rfl,
    rfl, rfl, rfl, rfl⟩

end CargoLlvmCov
